import Mathlib

/-
Verification of the anomaly-detection train/score pipeline
(airflow/dags/train_iforest.py and airflow/dags/score_iforest.py).

The two scripts are shallowly embedded below.  Machine floats are modelled
by exact rationals; the square root inside the standard scaler is modelled
by a deterministic rational Newton approximation (floating-point sqrt is
itself a deterministic approximation, and no property proved here depends
on the numeric value of the scale).  The isolation-forest ensemble is
library code (sklearn); its tree construction is abstracted as a
deterministic function of the training matrix (the script fixes
random_state=42, train_iforest.py line 49), while the parts of the library
the claims depend on are embedded: column selection by name with
missing-column rejection (ColumnTransformer), median/most-frequent
imputation, standard scaling, one-hot encoding with handle_unknown set to
ignore, and the predict/decision_function/offset relation of
IsolationForest with contamination set to auto (offset fixed at -1/2).
-/

namespace AnomalyPipeline

/-- The pandas dtypes that arise in the scripts.  pd.read_csv
(train_iforest.py line 21, score_iforest.py line 123) yields int64,
float64, object (strings / mixed) and bool; in addition, the date-derived
year/month/day columns are int32 when every timestamp parsed, on the
pandas 2.x that format="mixed" requires (see yearCol below). -/
inductive Dtype
  | int64
  | float64
  | int32
  | object
  | boolT
deriving DecidableEq, Repr

/-- A cell value: missing (NaN/NaT), numeric, string, or boolean. -/
inductive Value
  | na
  | num (q : ℚ)
  | str (s : String)
  | boolV (b : Bool)
deriving DecidableEq, Repr

/-- One dataframe column: a name, a dtype and the column values. -/
structure Col where
  name : String
  dtype : Dtype
  vals : List Value
deriving DecidableEq, Repr

/-- A pandas DataFrame: an ordered list of named columns. -/
abbrev DataFrame := List Col

def colNames (df : DataFrame) : List String := df.map (fun c => c.name)

def getCol (df : DataFrame) (n : String) : Option Col :=
  df.find? (fun c => c.name == n)

/-- Number of rows (length of the first column; columns of a well-formed
dataframe all have this length). -/
def nrows (df : DataFrame) : Nat :=
  match df with
  | [] => 0
  | c :: _ => c.vals.length

/-- All columns have the common row count. -/
def Rectangular (df : DataFrame) : Prop := ∀ c ∈ df, c.vals.length = nrows df

/-- pandas column assignment df[name] = vals: overwrite the column in place
if the name exists, otherwise append a new column at the end. -/
def setCol (df : DataFrame) (c : Col) : DataFrame :=
  if (colNames df).contains c.name then
    df.map (fun c0 => if c0.name == c.name then c else c0)
  else df ++ [c]

/-- pandas df.drop(columns=[n]). -/
def dropCol (df : DataFrame) (n : String) : DataFrame :=
  df.filter (fun c => c.name != n)

/-- Value of column n at row i (missing when out of range / column absent;
callers check presence first). -/
def colVal (df : DataFrame) (n : String) (i : Nat) : Value :=
  match getCol df n with
  | some c => c.vals.getD i .na
  | none => .na

def colValsD (df : DataFrame) (n : String) : List Value :=
  match getCol df n with
  | some c => c.vals
  | none => []

/-- pd.to_datetime(x, errors="coerce", format="mixed"), modelled for ISO
dates "YYYY-MM-DD" with an optional time part after a space; any value that
does not parse coerces to missing, exactly the tolerant behaviour the
script relies on (train_iforest.py line 24). -/
def parseDate (v : Value) : Option (Int × Int × Int) :=
  match v with
  | .str s =>
    let datePart := (s.splitOn " ").headD s
    match datePart.splitOn "-" with
    | [y, m, d] =>
      match y.toNat?, m.toNat?, d.toNat? with
      | some yn, some mn, some dn =>
        if 1 ≤ mn ∧ mn ≤ 12 ∧ 1 ≤ dn ∧ dn ≤ 31 then
          some ((yn : Int), (mn : Int), (dn : Int))
        else none
      | _, _, _ => none
    | _ => none
  | _ => none

/-- The dtype of a dt.dt.year/month/day column on pandas 2.x (the pandas
format="mixed" requires): int32 when every value parsed, float64 (holding
NaN) as soon as one value coerced to missing. -/
def dateDtype (parsed : List (Option (Int × Int × Int))) : Dtype :=
  if parsed.all (fun o => o.isSome) then .int32 else .float64

/-- df["year"] = dt.dt.year: the year of each parsed date, missing where
the date did not parse; the column is int32 when everything parsed and
float64 otherwise (dateDtype). -/
def yearCol (parsed : List (Option (Int × Int × Int))) : Col :=
  ⟨"year", dateDtype parsed,
    parsed.map (fun o =>
      match o with
      | some (y, _, _) => .num (y : ℚ)
      | none => .na)⟩

def monthCol (parsed : List (Option (Int × Int × Int))) : Col :=
  ⟨"month", dateDtype parsed,
    parsed.map (fun o =>
      match o with
      | some (_, m, _) => .num (m : ℚ)
      | none => .na)⟩

def dayCol (parsed : List (Option (Int × Int × Int))) : Col :=
  ⟨"day", dateDtype parsed,
    parsed.map (fun o =>
      match o with
      | some (_, _, d) => .num (d : ℚ)
      | none => .na)⟩

/-- train_iforest.py lines 23-28: when enabled and "crash_date" is present,
parse it tolerantly, add year/month/day columns and drop "crash_date";
otherwise leave the dataframe untouched. -/
def expandDates (useDateFeatures : Bool) (df : DataFrame) : DataFrame :=
  if useDateFeatures && (colNames df).contains "crash_date" then
    match getCol df "crash_date" with
    | some c =>
      let parsed := c.vals.map parseDate
      dropCol
        (setCol (setCol (setCol df (yearCol parsed)) (monthCol parsed))
          (dayCol parsed))
        "crash_date"
    | none => df
  else df

/-- train_iforest.py line 30: df.select_dtypes(include=["int64","float64"]). -/
def numColsOf (df : DataFrame) : List String :=
  (df.filter (fun c => c.dtype == .int64 || c.dtype == .float64)).map
    (fun c => c.name)

/-- train_iforest.py line 31: df.select_dtypes(include=["object","bool"]). -/
def catColsOf (df : DataFrame) : List String :=
  (df.filter (fun c => c.dtype == .object || c.dtype == .boolT)).map
    (fun c => c.name)

/-- Numeric view of a cell (strings/bools/missing are not numeric). -/
def toNum (v : Value) : Option ℚ :=
  match v with
  | .num q => some q
  | _ => none

/-- Categorical view of a cell; pandas renders booleans as "True"/"False"
inside object comparisons, and the one-hot vocabulary is a set of such
string keys. -/
def catVal (v : Value) : Option String :=
  match v with
  | .str s => some s
  | .boolV b => some (if b then "True" else "False")
  | _ => none

def insertSortedQ (q : ℚ) : List ℚ → List ℚ
  | [] => [q]
  | x :: xs => if q ≤ x then q :: x :: xs else x :: insertSortedQ q xs

def sortQ (l : List ℚ) : List ℚ := l.foldr insertSortedQ []

def insertSortedS (s : String) : List String → List String
  | [] => [s]
  | x :: xs => if s < x then s :: x :: xs else x :: insertSortedS s xs

def sortS (l : List String) : List String := l.foldr insertSortedS []

def dedupAdj : List String → List String
  | [] => []
  | [x] => [x]
  | x :: y :: r => if x == y then dedupAdj (y :: r) else x :: dedupAdj (y :: r)

/-- np.unique: ascending sorted distinct values. -/
def sortedUnique (l : List String) : List String := dedupAdj (sortS l)

/-- np.median over the non-missing values (middle element, or the average
of the two middle elements). -/
def medianOf (l : List ℚ) : ℚ :=
  let s := sortQ l
  let n := s.length
  if n = 0 then 0
  else if n % 2 = 1 then s.getD (n / 2) 0
  else (s.getD (n / 2 - 1) 0 + s.getD (n / 2) 0) / 2

def countEqS (l : List String) (s : String) : Nat :=
  (l.filter (fun t => t == s)).length

/-- SimpleImputer(strategy="most_frequent"): the most frequent value,
breaking ties toward the smallest in sorted order (np.unique order). -/
def modeOf (l : List String) : String :=
  match sortedUnique l with
  | [] => ""
  | u :: us =>
    us.foldl (fun best t => if countEqS l best < countEqS l t then t else best) u

def sqrtIter : Nat → ℚ → ℚ → ℚ
  | 0, _, g => g
  | n + 1, q, g => sqrtIter n q ((g + q / g) / 2)

/-- Deterministic rational approximation of the square root (Newton,
fixed iteration count), standing in for the floating-point sqrt inside
StandardScaler; exact on the fixed points of the iteration (e.g. 1). -/
def ratSqrt (q : ℚ) : ℚ := if q ≤ 0 then 0 else sqrtIter 6 q (max q 1)

/-- Fitted state of the numeric sub-pipeline of the ColumnTransformer
(train_iforest.py lines 35-38): the imputation median, and the
mean/scale of the StandardScaler fitted on the imputed column. -/
structure NumStats where
  median : ℚ
  mean : ℚ
  scale : ℚ
deriving DecidableEq, Repr

/-- Fitted state of the categorical sub-pipeline (train_iforest.py lines
39-42): the imputation mode and the one-hot vocabulary. -/
structure CatStats where
  mode : String
  vocab : List String
deriving DecidableEq, Repr

/-- Fit SimpleImputer(median) then StandardScaler on one numeric column.
StandardScaler uses the population variance; a constant column gets
scale 1 (sklearn maps zero variances to 1). -/
def fitNumStats (vs : List Value) : NumStats :=
  let med := medianOf (vs.filterMap toNum)
  let imputed := vs.map (fun v => (toNum v).getD med)
  let n : ℚ := (imputed.length : ℚ)
  let mean := if imputed.length = 0 then 0 else imputed.sum / n
  let var :=
    if imputed.length = 0 then 0
    else (imputed.map (fun x => (x - mean) ^ 2)).sum / n
  ⟨med, mean, if var = 0 then 1 else ratSqrt var⟩

/-- Fit SimpleImputer(most_frequent) then OneHotEncoder on one categorical
column; the vocabulary is the sorted set of observed (post-imputation)
categories. -/
def fitCatStats (vs : List Value) : CatStats :=
  let mode := modeOf (vs.filterMap catVal)
  ⟨mode, sortedUnique (vs.map (fun v => (catVal v).getD mode))⟩

/-- The fitted ColumnTransformer: per-column statistics keyed by column
name, numeric transformers first, in fit-time column order. -/
structure FittedPreprocessor where
  numStats : List (String × NumStats)
  catStats : List (String × CatStats)
deriving DecidableEq, Repr

/-- ColumnTransformer.fit on the (date-expanded) training frame
(train_iforest.py lines 33-44): select columns by dtype (a column of a
dtype in neither select_dtypes list lands in neither set) and fit the
per-column statistics. -/
def fitPreprocessor (df : DataFrame) : FittedPreprocessor :=
  ⟨(numColsOf df).map (fun n => (n, fitNumStats (colValsD df n))),
   (catColsOf df).map (fun n => (n, fitCatStats (colValsD df n)))⟩

/-- Columns the fitted transformer selects by name at transform time. -/
def schemaCols (p : FittedPreprocessor) : List String :=
  p.numStats.map (fun pr => pr.1) ++ p.catStats.map (fun pr => pr.1)

/-- Fit-time columns absent from a dataframe; ColumnTransformer.transform
raises when this is nonempty ("columns are missing"). -/
def missingCols (p : FittedPreprocessor) (df : DataFrame) : List String :=
  (schemaCols p).filter (fun n => (getCol df n).isNone)

/-- Transform one numeric cell: impute with the stored median, then scale
with the stored mean/scale (never the scoring data's own statistics). -/
def transformNum (st : NumStats) (v : Value) : ℚ :=
  ((toNum v).getD st.median - st.mean) / st.scale

/-- Transform one categorical cell: impute missing with the stored mode,
then one-hot encode against the stored vocabulary; a value outside the
vocabulary yields the all-zero indicator row (handle_unknown="ignore"). -/
def transformCat (st : CatStats) (v : Value) : List ℚ :=
  let s := (catVal v).getD st.mode
  st.vocab.map (fun c => if c == s then (1 : ℚ) else 0)

/-- One output row of the fitted transformer: numeric features first, then
the concatenated one-hot blocks, both in fit-time column order. -/
def transformRow (p : FittedPreprocessor) (df : DataFrame) (i : Nat) : List ℚ :=
  p.numStats.map (fun pr => transformNum pr.2 (colVal df pr.1 i)) ++
    (p.catStats.map (fun pr => transformCat pr.2 (colVal df pr.1 i))).flatten

/-- The full feature matrix (row-major), defined wherever the schema
columns are present. -/
def transformMat (p : FittedPreprocessor) (df : DataFrame) : List (List ℚ) :=
  (List.range (nrows df)).map (transformRow p df)

/-- The failure modes of the two scripts that the claims talk about. -/
inductive PipeError
  | missingColumns (names : List String)
  | noExperiment
  | noRuns
  | loadFailure
deriving DecidableEq, Repr

/-- ColumnTransformer.transform: reject a frame missing any fit-time
schema column, otherwise produce the feature matrix (extra columns are
ignored; selection is by name). -/
def transformChecked (p : FittedPreprocessor) (df : DataFrame) :
    Except PipeError (List (List ℚ)) :=
  if missingCols p df = [] then .ok (transformMat p df)
  else .error (.missingColumns (missingCols p df))

/-- The fitted IsolationForest: the raw per-row score (sklearn
score_samples, determined by the fitted ensemble) and the decision offset.
With contamination="auto" sklearn fixes offset at -1/2. -/
structure FittedModel where
  rawScore : List ℚ → ℚ
  offset : ℚ

/-- IsolationForest.decision_function: score_samples shifted by the
offset; negative means anomalous. -/
def decisionFunction (m : FittedModel) (x : List ℚ) : ℚ :=
  m.rawScore x - m.offset

/-- IsolationForest.predict: -1 where decision_function is negative,
+1 otherwise. -/
def predictOne (m : FittedModel) (x : List ℚ) : Int :=
  if decisionFunction m x < 0 then -1 else 1

/-- IsolationForest.fit with contamination="auto" and a fixed
random_state (train_iforest.py lines 46-50): the ensemble construction is
library code abstracted as the deterministic parameter raw (a function of
the training matrix — the seed is the constant 42, so there is no other
source of variation); the offset is -1/2 as sklearn sets for
contamination="auto". -/
def fitIsolationForest (raw : List (List ℚ) → List ℚ → ℚ)
    (x : List (List ℚ)) : FittedModel :=
  ⟨raw x, -(1 / 2)⟩

/-- The registered artifact: Pipeline([("preprocess", ...), ("model", ...)]). -/
structure FittedPipeline where
  preprocess : FittedPreprocessor
  model : FittedModel

/-- pipeline.predict(df): transform (selection by name, missing columns
rejected), then predict each row. -/
def pipelinePredict (pipe : FittedPipeline) (df : DataFrame) :
    Except PipeError (List Int) :=
  (transformChecked pipe.preprocess df).map (fun x => x.map (predictOne pipe.model))

/-- pipeline.named_steps["model"].decision_function applied to
pipeline.named_steps["preprocess"].transform(df) — the anomaly scores
(train_iforest.py lines 62-64, score_iforest.py lines 127-128). -/
def pipelineScores (pipe : FittedPipeline) (df : DataFrame) :
    Except PipeError (List ℚ) :=
  (transformChecked pipe.preprocess df).map
    (fun x => x.map (decisionFunction pipe.model))

/-- What one training run produces: the registered pipeline, the
self-check labels and scores on the training data, and the logged
anomaly-rate metric. -/
structure TrainResult where
  pipeline : FittedPipeline
  preds : Except PipeError (List Int)
  scores : Except PipeError (List ℚ)
  anomalyRate : ℚ

/-- (preds == -1).mean() — the logged metric (train_iforest.py line 66). -/
def anomalyRateOf (preds : Except PipeError (List Int)) : ℚ :=
  match preds with
  | .ok l =>
    if l.length = 0 then 0
    else ((l.filter (fun p => p == -1)).length : ℚ) / (l.length : ℚ)
  | .error _ => 0

/-- train_iforest.py main (lines 21-67): date expansion, joint fit of the
preprocessor and the model on the expanded frame, then the training-time
self-check (predict and decision_function on the same frame) and the
anomaly-rate metric. -/
def trainMain (raw : List (List ℚ) → List ℚ → ℚ) (useDateFeatures : Bool)
    (df0 : DataFrame) : TrainResult :=
  let df := expandDates useDateFeatures df0
  let p := fitPreprocessor df
  let m := fitIsolationForest raw (transformMat p df)
  let pipe : FittedPipeline := ⟨p, m⟩
  let preds := pipelinePredict pipe df
  ⟨pipe, preds, pipelineScores pipe df, anomalyRateOf preds⟩

/-- One mlflow run of the training experiment. -/
structure Run where
  runId : String
  startTime : Int
deriving DecidableEq, Repr

/-- The mlflow registry state the scoring script queries: experiments by
name, each with its stored runs (in arbitrary storage order). -/
structure Registry where
  experiments : List (String × List Run)

def getExperimentByName (reg : Registry) (name : String) : Option (List Run) :=
  (reg.experiments.find? (fun e => e.1 == name)).map (fun e => e.2)

def maxRun (a b : Run) : Run := if a.startTime < b.startTime then b else a

/-- mlflow.search_runs(..., order_by=["start_time DESC"], max_results=1):
the run with the maximal start time (first encountered wins ties). -/
def latestRun : List Run → Option Run
  | [] => none
  | r :: rs => some (rs.foldl maxRun r)

/-- score_iforest.py lines 106-121: resolve the sentinel "latest" to a
runs:/ URI via the training experiment; a missing experiment and an empty
run list are distinct fatal resolution errors, raised before the input
dataset is read. -/
def resolveLatest (reg : Registry) : Except PipeError String :=
  match getExperimentByName reg "traffic_anomaly_detection" with
  | none => .error .noExperiment
  | some runs =>
    match latestRun runs with
    | none => .error .noRuns
    | some r => .ok ("runs:/" ++ r.runId ++ "/model")

def resolveModelUri (reg : Registry) (uri : String) : Except PipeError String :=
  if uri == "latest" then resolveLatest reg else .ok uri

/-- The appended prediction column df["anomaly_pred"] = preds. -/
def predsCol (preds : List Int) : Col :=
  ⟨"anomaly_pred", .int64, preds.map (fun p => .num (p : ℚ))⟩

/-- The appended score column df["anomaly_score"] = scores. -/
def scoresCol (scores : List ℚ) : Col :=
  ⟨"anomaly_score", .float64, scores.map (fun s => .num s)⟩

/-- score_iforest.py main (lines 106-133): resolve the model reference,
load the pipeline (store abstracts mlflow.sklearn.load_model), predict and
score the input frame, and only then assemble the output frame with the
two appended columns; every failure happens before any output exists. -/
def scoreMain (reg : Registry) (store : String → Option FittedPipeline)
    (modelUri : String) (df : DataFrame) : Except PipeError DataFrame :=
  match resolveModelUri reg modelUri with
  | .error e => .error e
  | .ok uri =>
    match store uri with
    | none => .error .loadFailure
    | some pipe =>
      match pipelinePredict pipe df, pipelineScores pipe df with
      | .ok preds, .ok scores =>
        .ok (setCol (setCol df (predsCol preds)) (scoresCol scores))
      | .error e, _ => .error e
      | .ok _, .error e => .error e

/-! Concrete fixtures used to evaluate the development on explicit inputs. -/

/-- A degenerate ensemble scorer: every record scores 0. -/
def rawZero : List (List ℚ) → List ℚ → ℚ := fun _ _ => 0

/-- An ensemble scorer returning the first feature, so different records
get different scores. -/
def rawHead : List (List ℚ) → List ℚ → ℚ := fun _ x => x.headD 0

/-- A two-row dataset with a timestamp column, one row parseable and one
not, plus one numeric column. -/
def dfDate : DataFrame :=
  [⟨"crash_date", .object, [.str "2024-01-02", .str "junk"]⟩,
   ⟨"v", .float64, [.num 0, .num 2]⟩]

/-- A two-row dataset whose timestamp column parses completely, so the
derived year/month/day columns come out int32. -/
def dfDateAll : DataFrame :=
  [⟨"crash_date", .object, [.str "2024-01-02", .str "2023-05-06"]⟩,
   ⟨"v", .float64, [.num 0, .num 2]⟩]

/-- Training data: one numeric and one categorical column. -/
def dfTrainA : DataFrame :=
  [⟨"v", .float64, [.num 0, .num 2]⟩,
   ⟨"b", .object, [.str "x", .str "y"]⟩]

/-- Scoring data of the same schema, with the category "z" that was never
seen at fit time. -/
def dfScoreA : DataFrame :=
  [⟨"v", .float64, [.num 0, .num 2]⟩,
   ⟨"b", .object, [.str "z", .str "x"]⟩]

/-- The same values as dfScoreA on the schema columns, but in a different
column order and with an extra column the fit-time schema does not know. -/
def dfShuffledA : DataFrame :=
  [⟨"extra", .float64, [.num 5, .num 7]⟩,
   ⟨"b", .object, [.str "z", .str "x"]⟩,
   ⟨"v", .float64, [.num 0, .num 2]⟩]

/-- A scoring frame lacking the categorical schema column "b". -/
def dfMissB : DataFrame := [⟨"v", .float64, [.num 1]⟩]

/-- The pipeline registered by training on dfTrainA (no date features). -/
def pipeA : FittedPipeline := (trainMain rawZero false dfTrainA).pipeline

def storeA : String → Option FittedPipeline := fun _ => some pipeA

/-- One-column training data for the record-sensitive scorer. -/
def dfV : DataFrame := [⟨"v", .float64, [.num 0, .num 2]⟩]

/-- The pipeline registered by training on dfV with the record-sensitive
scorer. -/
def pipeHead : FittedPipeline := (trainMain rawHead false dfV).pipeline

/-- A one-record batch whose record scores below the fixed threshold. -/
def batchLow : DataFrame := [⟨"v", .float64, [.num (-2)]⟩]

/-- A one-record batch whose record scores above the fixed threshold. -/
def batchHigh : DataFrame := [⟨"v", .float64, [.num 2]⟩]

/-- The scored output frame of scoring dfScoreA with pipeA, written out
explicitly. -/
def scoredA : DataFrame :=
  [⟨"v", .float64, [.num 0, .num 2]⟩,
   ⟨"b", .object, [.str "z", .str "x"]⟩,
   ⟨"anomaly_pred", .int64, [.num 1, .num 1]⟩,
   ⟨"anomaly_score", .float64, [.num (1 / 2), .num (1 / 2)]⟩]

def runOne : Run := ⟨"r1", 5⟩

def runTwo : Run := ⟨"r2", 9⟩

/-- A registry whose training experiment holds two runs, the later one
stored second. -/
def regTwo : Registry := ⟨[("traffic_anomaly_detection", [runOne, runTwo])]⟩

/-- The same two runs stored in the opposite order. -/
def regTwoRev : Registry := ⟨[("traffic_anomaly_detection", [runTwo, runOne])]⟩

/-! Helper lemmas shared by the claim theorems. -/

lemma contains_false_of_not_mem {a : String} {l : List String} (h : a ∉ l) :
    l.contains a = false := by simpa using h

lemma colNames_append (df1 df2 : DataFrame) :
    colNames (df1 ++ df2) = colNames df1 ++ colNames df2 :=
  List.map_append _ _ _

lemma setCol_of_fresh {df : DataFrame} {c : Col} (h : c.name ∉ colNames df) :
    setCol df c = df ++ [c] := by
  simp only [setCol, contains_false_of_not_mem h, Bool.false_eq_true, if_false]

lemma transformChecked_ok_iff {p : FittedPreprocessor} {df : DataFrame}
    {x : List (List ℚ)} :
    transformChecked p df = .ok x ↔
      (missingCols p df = [] ∧ x = transformMat p df) := by
  by_cases h : missingCols p df = [] <;> simp [transformChecked, h, eq_comm]

lemma length_transformMat (p : FittedPreprocessor) (df : DataFrame) :
    (transformMat p df).length = nrows df := by simp [transformMat]

lemma pipelinePredict_ok {pipe : FittedPipeline} {df : DataFrame}
    (h : missingCols pipe.preprocess df = []) :
    pipelinePredict pipe df =
      .ok ((transformMat pipe.preprocess df).map (predictOne pipe.model)) := by
  simp [pipelinePredict, transformChecked, h, Except.map]

lemma pipelineScores_ok {pipe : FittedPipeline} {df : DataFrame}
    (h : missingCols pipe.preprocess df = []) :
    pipelineScores pipe df =
      .ok ((transformMat pipe.preprocess df).map (decisionFunction pipe.model)) := by
  simp [pipelineScores, transformChecked, h, Except.map]

lemma pipelinePredict_err {pipe : FittedPipeline} {df : DataFrame}
    (h : missingCols pipe.preprocess df ≠ []) :
    pipelinePredict pipe df =
      .error (.missingColumns (missingCols pipe.preprocess df)) := by
  simp [pipelinePredict, transformChecked, h, Except.map]

lemma scoreMain_ok_eq {reg : Registry} {store : String → Option FittedPipeline}
    {uri0 uri : String} {pipe : FittedPipeline} {df : DataFrame}
    (hres : resolveModelUri reg uri0 = .ok uri)
    (hstore : store uri = some pipe)
    (hm : missingCols pipe.preprocess df = []) :
    scoreMain reg store uri0 df =
      .ok (setCol
            (setCol df
              (predsCol ((transformMat pipe.preprocess df).map (predictOne pipe.model))))
            (scoresCol ((transformMat pipe.preprocess df).map (decisionFunction pipe.model)))) := by
  simp [scoreMain, hres, hstore, pipelinePredict_ok hm, pipelineScores_ok hm]

lemma scoreMain_ok_inv {reg : Registry} {store : String → Option FittedPipeline}
    {uri0 : String} {df out : DataFrame}
    (h : scoreMain reg store uri0 df = .ok out) :
    ∃ uri pipe, resolveModelUri reg uri0 = .ok uri ∧ store uri = some pipe ∧
      missingCols pipe.preprocess df = [] ∧
      out = setCol
              (setCol df
                (predsCol ((transformMat pipe.preprocess df).map (predictOne pipe.model))))
              (scoresCol ((transformMat pipe.preprocess df).map (decisionFunction pipe.model))) := by
  cases hres : resolveModelUri reg uri0 with
  | error e => simp [scoreMain, hres] at h
  | ok uri =>
    cases hstore : store uri with
    | none => simp [scoreMain, hres, hstore] at h
    | some pipe =>
      by_cases hm : missingCols pipe.preprocess df = []
      · refine ⟨uri, pipe, rfl, hstore, hm, ?_⟩
        rw [scoreMain_ok_eq hres hstore hm] at h
        injection h with h2
        exact h2.symm
      · simp [scoreMain, hres, hstore, pipelinePredict_err hm] at h

lemma scoreMain_append_shape {reg : Registry}
    {store : String → Option FittedPipeline} {uri0 : String} {df out : DataFrame}
    (h1 : "anomaly_pred" ∉ colNames df) (h2 : "anomaly_score" ∉ colNames df)
    (hok : scoreMain reg store uri0 df = .ok out) :
    ∃ preds scores, out = df ++ [predsCol preds, scoresCol scores] ∧
      preds.length = nrows df ∧ scores.length = nrows df := by
  obtain ⟨uri, pipe, -, -, hm, hout⟩ := scoreMain_ok_inv hok
  refine ⟨(transformMat pipe.preprocess df).map (predictOne pipe.model),
          (transformMat pipe.preprocess df).map (decisionFunction pipe.model),
          ?_, by simp [length_transformMat], by simp [length_transformMat]⟩
  have hset1 : setCol df
      (predsCol ((transformMat pipe.preprocess df).map (predictOne pipe.model))) =
      df ++ [predsCol ((transformMat pipe.preprocess df).map (predictOne pipe.model))] :=
    setCol_of_fresh h1
  have hfresh2 : (scoresCol ((transformMat pipe.preprocess df).map
      (decisionFunction pipe.model))).name ∉
      colNames (df ++ [predsCol ((transformMat pipe.preprocess df).map (predictOne pipe.model))]) := by
    rw [colNames_append]
    intro hmem
    rcases List.mem_append.mp hmem with hmem1 | hmem2
    · exact h2 hmem1
    · simp [colNames, predsCol, scoresCol] at hmem2
  rw [hout, hset1, setCol_of_fresh hfresh2, List.append_assoc]
  simp

lemma le_foldl_maxRun_init :
    ∀ (rs : List Run) (r : Run), r.startTime ≤ (rs.foldl maxRun r).startTime := by
  intro rs
  induction rs with
  | nil => intro r; exact le_refl _
  | cons a rs ih =>
    intro r
    refine le_trans ?_ (ih (maxRun r a))
    unfold maxRun
    split
    · exact le_of_lt (by assumption)
    · exact le_refl _

lemma le_foldl_maxRun_mem :
    ∀ (rs : List Run) (r r2 : Run), r2 ∈ rs →
      r2.startTime ≤ (rs.foldl maxRun r).startTime := by
  intro rs
  induction rs with
  | nil => intro r r2 h; cases h
  | cons a rs ih =>
    intro r r2 h
    rcases List.mem_cons.mp h with h2 | h2
    · subst h2
      refine le_trans ?_ (le_foldl_maxRun_init rs (maxRun r r2))
      unfold maxRun
      split
      · exact le_refl _
      · exact le_of_not_lt (by assumption)
    · exact ih (maxRun r a) r2 h2

lemma foldl_maxRun_mem :
    ∀ (rs : List Run) (r : Run), rs.foldl maxRun r = r ∨ rs.foldl maxRun r ∈ rs := by
  intro rs
  induction rs with
  | nil => intro r; exact Or.inl rfl
  | cons a rs ih =>
    intro r
    rcases ih (maxRun r a) with h | h
    · rw [List.foldl_cons, h]
      unfold maxRun
      split
      · exact Or.inr (List.mem_cons_self _ _)
      · exact Or.inl rfl
    · exact Or.inr (List.mem_cons_of_mem a h)

lemma latestRun_spec {runs : List Run} {r : Run} (h : latestRun runs = some r) :
    r ∈ runs ∧ ∀ r2 ∈ runs, r2.startTime ≤ r.startTime := by
  cases runs with
  | nil => cases h
  | cons a rs =>
    have hr : r = rs.foldl maxRun a := by
      injection h with h2
      exact h2.symm
    subst hr
    constructor
    · rcases foldl_maxRun_mem rs a with h2 | h2
      · rw [h2]; exact List.mem_cons_self _ _
      · exact List.mem_cons_of_mem a h2
    · intro r2 hr2
      rcases List.mem_cons.mp hr2 with h2 | h2
      · subst h2; exact le_foldl_maxRun_init rs r2
      · exact le_foldl_maxRun_mem rs a r2 h2

lemma latestRun_unique {runs : List Run} {r : Run} (hmem : r ∈ runs)
    (hmax : ∀ r2 ∈ runs, r2 = r ∨ r2.startTime < r.startTime) :
    latestRun runs = some r := by
  cases runs with
  | nil => cases hmem
  | cons a rs =>
    have hsome : latestRun (a :: rs) = some (rs.foldl maxRun a) := rfl
    have hmmem : rs.foldl maxRun a ∈ a :: rs := by
      rcases foldl_maxRun_mem rs a with h2 | h2
      · rw [h2]; exact List.mem_cons_self _ _
      · exact List.mem_cons_of_mem a h2
    have hle : r.startTime ≤ (rs.foldl maxRun a).startTime := by
      rcases List.mem_cons.mp hmem with h2 | h2
      · subst h2; exact le_foldl_maxRun_init rs r
      · exact le_foldl_maxRun_mem rs a r h2
    rcases hmax _ hmmem with h2 | h2
    · rw [hsome, h2]
    · exact absurd (lt_of_le_of_lt hle h2) (lt_irrefl _)

lemma colVal_congr {df1 df2 : DataFrame} {n : String}
    (h : (getCol df1 n).map Col.vals = (getCol df2 n).map Col.vals) (i : Nat) :
    colVal df1 n i = colVal df2 n i := by
  unfold colVal
  cases h1 : getCol df1 n with
  | none =>
    cases h2 : getCol df2 n with
    | none => rfl
    | some c2 => rw [h1, h2] at h; simp at h
  | some c1 =>
    cases h2 : getCol df2 n with
    | none => rw [h1, h2] at h; simp at h
    | some c2 =>
      rw [h1, h2] at h
      simp only [Option.map_some'] at h
      injection h with h3
      simp [h3]

lemma getCol_isNone_congr {df1 df2 : DataFrame} {n : String}
    (h : (getCol df1 n).map Col.vals = (getCol df2 n).map Col.vals) :
    (getCol df1 n).isNone = (getCol df2 n).isNone := by
  cases h1 : getCol df1 n <;> cases h2 : getCol df2 n <;> rw [h1, h2] at h <;>
    simp at h ⊢

lemma numStat_name_mem_schema {p : FittedPreprocessor} {pr : String × NumStats}
    (h : pr ∈ p.numStats) : pr.1 ∈ schemaCols p :=
  List.mem_append_left _ (List.mem_map_of_mem _ h)

lemma catStat_name_mem_schema {p : FittedPreprocessor} {pr : String × CatStats}
    (h : pr ∈ p.catStats) : pr.1 ∈ schemaCols p :=
  List.mem_append_right _ (List.mem_map_of_mem _ h)

lemma transformRow_congr {p : FittedPreprocessor} {df1 df2 : DataFrame}
    (hag : ∀ n ∈ schemaCols p,
      (getCol df1 n).map Col.vals = (getCol df2 n).map Col.vals) (i : Nat) :
    transformRow p df1 i = transformRow p df2 i := by
  unfold transformRow
  congr 1
  · exact List.map_congr_left
      (fun pr hpr => by rw [colVal_congr (hag pr.1 (numStat_name_mem_schema hpr)) i])
  · congr 1
    exact List.map_congr_left
      (fun pr hpr => by rw [colVal_congr (hag pr.1 (catStat_name_mem_schema hpr)) i])

lemma missingCols_congr {p : FittedPreprocessor} {df1 df2 : DataFrame}
    (hag : ∀ n ∈ schemaCols p,
      (getCol df1 n).map Col.vals = (getCol df2 n).map Col.vals) :
    missingCols p df1 = missingCols p df2 :=
  List.filter_congr (fun n hn => by rw [getCol_isNone_congr (hag n hn)])

lemma transformMat_congr {p : FittedPreprocessor} {df1 df2 : DataFrame}
    (hn : nrows df1 = nrows df2)
    (hag : ∀ n ∈ schemaCols p,
      (getCol df1 n).map Col.vals = (getCol df2 n).map Col.vals) :
    transformMat p df1 = transformMat p df2 := by
  unfold transformMat
  rw [hn]
  exact List.map_congr_left (fun i _ => transformRow_congr hag i)

lemma filter_names_sub {P : Col → Bool} {df : DataFrame} {n : String}
    (h : n ∈ (df.filter P).map (fun c0 => c0.name)) : n ∈ colNames df := by
  obtain ⟨c, hc, rfl⟩ := List.mem_map.mp h
  exact List.mem_map_of_mem _ (List.mem_of_mem_filter hc)

lemma mem_filter_names_iff {P : Col → Bool} :
    ∀ {df : DataFrame}, (colNames df).Nodup → ∀ {c : Col}, c ∈ df →
      (c.name ∈ (df.filter P).map (fun c0 => c0.name) ↔ P c = true) := by
  intro df
  induction df with
  | nil => intro _ c hc; cases hc
  | cons d ds ih =>
    intro hnodup c hc
    have hcn : colNames (d :: ds) = d.name :: colNames ds := rfl
    rw [hcn, List.nodup_cons] at hnodup
    obtain ⟨hd, hnd⟩ := hnodup
    rcases List.mem_cons.mp hc with hceq | hc2
    · subst hceq
      cases hb : P c with
      | true =>
        rw [List.filter_cons_of_pos hb]
        simp [hb]
      | false =>
        rw [List.filter_cons_of_neg
          (fun hcontra => Bool.noConfusion (hb.symm.trans hcontra))]
        constructor
        · intro hmem; exact absurd (filter_names_sub hmem) hd
        · intro htrue; exact Bool.noConfusion htrue
    · have hih := ih hnd hc2
      have hcne : c.name ≠ d.name := by
        intro he
        exact hd (he ▸ List.mem_map_of_mem (fun c0 => c0.name) hc2)
      cases hb : P d with
      | true =>
        rw [List.filter_cons_of_pos hb, List.map_cons]
        rw [List.mem_cons]
        constructor
        · intro hmem
          rcases hmem with hmem | hmem
          · exact absurd hmem hcne
          · exact hih.mp hmem
        · intro hp; exact Or.inr (hih.mpr hp)
      | false =>
        rw [List.filter_cons_of_neg
          (fun hcontra => Bool.noConfusion (hb.symm.trans hcontra))]
        exact hih

lemma mem_numColsOf_iff {df : DataFrame} (hnodup : (colNames df).Nodup)
    {c : Col} (hc : c ∈ df) :
    c.name ∈ numColsOf df ↔ (c.dtype = .int64 ∨ c.dtype = .float64) := by
  have h := mem_filter_names_iff
    (P := fun c0 => c0.dtype == Dtype.int64 || c0.dtype == Dtype.float64) hnodup hc
  simpa [numColsOf] using h

lemma mem_catColsOf_iff {df : DataFrame} (hnodup : (colNames df).Nodup)
    {c : Col} (hc : c ∈ df) :
    c.name ∈ catColsOf df ↔ (c.dtype = .object ∨ c.dtype = .boolT) := by
  have h := mem_filter_names_iff
    (P := fun c0 => c0.dtype == Dtype.object || c0.dtype == Dtype.boolT) hnodup hc
  simpa [catColsOf] using h

lemma expandDates_pos {df : DataFrame} {c : Col}
    (hget : getCol df "crash_date" = some c)
    (hy : "year" ∉ colNames df) (hmo : "month" ∉ colNames df)
    (hd : "day" ∉ colNames df) :
    expandDates true df =
      dropCol df "crash_date" ++
        [yearCol (c.vals.map parseDate), monthCol (c.vals.map parseDate),
         dayCol (c.vals.map parseDate)] := by
  have hcmem : c ∈ df := List.mem_of_find?_eq_some hget
  have hname : c.name = "crash_date" := by
    have h2 := List.find?_some hget
    simpa using h2
  have hmem : "crash_date" ∈ colNames df :=
    hname ▸ List.mem_map_of_mem (fun c0 => c0.name) hcmem
  have hcontains : (colNames df).contains "crash_date" = true := by simpa using hmem
  have hy2 : (yearCol (c.vals.map parseDate)).name ∉ colNames df := hy
  have hm2 : (monthCol (c.vals.map parseDate)).name ∉
      colNames (df ++ [yearCol (c.vals.map parseDate)]) := by
    rw [colNames_append]
    intro hmem2
    rcases List.mem_append.mp hmem2 with h2 | h2
    · exact hmo h2
    · simp [colNames, yearCol, monthCol] at h2
  have hd2 : (dayCol (c.vals.map parseDate)).name ∉
      colNames (df ++ [yearCol (c.vals.map parseDate)] ++
        [monthCol (c.vals.map parseDate)]) := by
    rw [colNames_append, colNames_append]
    intro hmem2
    rcases List.mem_append.mp hmem2 with h2 | h2
    · rcases List.mem_append.mp h2 with h3 | h3
      · exact hd h3
      · simp [colNames, yearCol, dayCol] at h3
    · simp [colNames, monthCol, dayCol] at h2
  simp only [expandDates, hcontains, Bool.and_self, if_true, hget]
  rw [setCol_of_fresh hy2, setCol_of_fresh hm2, setCol_of_fresh hd2]
  simp [dropCol, List.filter_append, yearCol, monthCol, dayCol]

/-- C8: at training time, when date features are enabled and the timestamp
column "crash_date" is present, the timestamp is parsed tolerantly
(unparseable values become missing), three new numeric columns year, month
and day are appended, and the original timestamp column is dropped; when
the flag is off or the column is absent the dataframe is unchanged. -/
theorem date_expansion_spec :
    (∀ (df : DataFrame) (c : Col),
        getCol df "crash_date" = some c →
        "year" ∉ colNames df → "month" ∉ colNames df → "day" ∉ colNames df →
        expandDates true df =
          dropCol df "crash_date" ++
            [yearCol (c.vals.map parseDate), monthCol (c.vals.map parseDate),
             dayCol (c.vals.map parseDate)]) ∧
    (∀ df : DataFrame, expandDates false df = df) ∧
    (∀ df : DataFrame, "crash_date" ∉ colNames df → expandDates true df = df) ∧
    (∀ vs : List Value,
        (yearCol (vs.map parseDate)).vals =
          vs.map (fun v =>
            match parseDate v with
            | some p => Value.num (p.1 : ℚ)
            | none => Value.na)) ∧
    (∀ l : List (Option (Int × Int × Int)),
        (yearCol l).dtype = dateDtype l ∧ (monthCol l).dtype = dateDtype l ∧
          (dayCol l).dtype = dateDtype l ∧
          (dateDtype l = .int32 ∨ dateDtype l = .float64)) := by
  refine ⟨fun df c hget hy hmo hd => expandDates_pos hget hy hmo hd,
          fun df => rfl, ?_, ?_, fun l => ⟨rfl, rfl, rfl, ?_⟩⟩
  · intro df h
    simp only [expandDates, contains_false_of_not_mem h, Bool.and_false,
      Bool.false_eq_true, if_false]
  · intro vs
    simp only [yearCol, List.map_map]
    apply List.map_congr_left
    intro v _
    simp only [Function.comp]
    rcases parseDate v with _ | ⟨y, m, d⟩ <;> rfl
  · unfold dateDtype
    split
    · exact Or.inl rfl
    · exact Or.inr rfl

/-- C8 witness: the positive branch evaluated on a concrete frame with one
parseable and one unparseable timestamp. -/
theorem date_expansion_spec_witness :
    expandDates true dfDate =
      dropCol dfDate "crash_date" ++
        [yearCol ([Value.str "2024-01-02", Value.str "junk"].map parseDate),
         monthCol ([Value.str "2024-01-02", Value.str "junk"].map parseDate),
         dayCol ([Value.str "2024-01-02", Value.str "junk"].map parseDate)] :=
  date_expansion_spec.1 dfDate
    ⟨"crash_date", .object, [Value.str "2024-01-02", Value.str "junk"]⟩
    rfl (by decide) (by decide) (by decide)

/-- C9 (failing evaluation): on a frame whose crash_date values all
parse, the derived year/month/day columns are int32 (pandas 2.x, required
by format="mixed"), which select_dtypes(["int64","float64"]) does not
select and select_dtypes(["object","bool"]) does not select either: the
three columns are present after date handling yet classified into neither
set, and so are silently left out of the fitted feature schema — the
claimed partition fails. -/
theorem date_columns_left_out_of_schema :
    colNames (expandDates true dfDateAll) = ["v", "year", "month", "day"] ∧
      (getCol (expandDates true dfDateAll) "year").isSome = true ∧
      numColsOf (expandDates true dfDateAll) = ["v"] ∧
      catColsOf (expandDates true dfDateAll) = [] ∧
      schemaCols (fitPreprocessor (expandDates true dfDateAll)) = ["v"] ∧
      "year" ∉ schemaCols (fitPreprocessor (expandDates true dfDateAll)) ∧
      "month" ∉ schemaCols (fitPreprocessor (expandDates true dfDateAll)) ∧
      "day" ∉ schemaCols (fitPreprocessor (expandDates true dfDateAll)) := by
  refine ⟨?_, ?_, ?_, ?_, ?_, ?_, ?_, ?_⟩ <;> with_unfolding_all decide

/-- C7: the training script bakes in random_state=42, so a training run is
a deterministic function of the dataset: two runs on the same data produce
identical fitted preprocessing statistics, identical self-check labels and
scores, and the same anomaly-rate metric. -/
theorem fit_deterministic :
    ∀ (raw : List (List ℚ) → List ℚ → ℚ) (useDateFeatures : Bool)
      (df : DataFrame) (r1 r2 : TrainResult),
      r1 = trainMain raw useDateFeatures df →
      r2 = trainMain raw useDateFeatures df →
      r1.pipeline.preprocess = r2.pipeline.preprocess ∧
        r1.preds = r2.preds ∧ r1.scores = r2.scores ∧
        r1.anomalyRate = r2.anomalyRate := by
  intro raw u df r1 r2 h1 h2
  subst h1
  subst h2
  exact ⟨rfl, rfl, rfl, rfl⟩

/-- C7 witness: two runs on the concrete training frame. -/
theorem fit_deterministic_witness :
    (trainMain rawZero false dfTrainA).pipeline.preprocess =
        (trainMain rawZero false dfTrainA).pipeline.preprocess ∧
      (trainMain rawZero false dfTrainA).preds =
        (trainMain rawZero false dfTrainA).preds ∧
      (trainMain rawZero false dfTrainA).scores =
        (trainMain rawZero false dfTrainA).scores ∧
      (trainMain rawZero false dfTrainA).anomalyRate =
        (trainMain rawZero false dfTrainA).anomalyRate :=
  fit_deterministic rawZero false dfTrainA _ _ rfl rfl

/-- C6: the sentinel "latest" resolves to the run of the training
experiment with the maximum start time, regardless of the storage order of
the runs; a missing experiment and an experiment with no runs are fatal
resolution errors, distinct from each other and from the input-side
missing-column error, and scoring propagates them before producing any
output. -/
theorem latest_resolution :
    (∀ (reg : Registry) (runs : List Run) (r : Run),
        getExperimentByName reg "traffic_anomaly_detection" = some runs →
        r ∈ runs → (∀ r2 ∈ runs, r2 = r ∨ r2.startTime < r.startTime) →
        resolveLatest reg = .ok ("runs:/" ++ r.runId ++ "/model")) ∧
    (∀ (reg : Registry) (runs : List Run) (uri : String),
        getExperimentByName reg "traffic_anomaly_detection" = some runs →
        resolveLatest reg = .ok uri →
        ∃ r, r ∈ runs ∧ uri = "runs:/" ++ r.runId ++ "/model" ∧
          ∀ r2 ∈ runs, r2.startTime ≤ r.startTime) ∧
    (∀ reg : Registry,
        getExperimentByName reg "traffic_anomaly_detection" = none →
        resolveLatest reg = .error .noExperiment) ∧
    (∀ reg : Registry,
        getExperimentByName reg "traffic_anomaly_detection" = some [] →
        resolveLatest reg = .error .noRuns) ∧
    (∀ (reg : Registry) (store : String → Option FittedPipeline)
        (df : DataFrame) (e : PipeError),
        resolveLatest reg = .error e →
        scoreMain reg store "latest" df = .error e) ∧
    (∀ names : List String,
        (PipeError.noExperiment ≠ .missingColumns names) ∧
        (PipeError.noRuns ≠ .missingColumns names) ∧
        PipeError.noExperiment ≠ PipeError.noRuns) := by
  refine ⟨?_, ?_, ?_, ?_, ?_, ?_⟩
  · intro reg runs r hexp hmem hmax
    simp [resolveLatest, hexp, latestRun_unique hmem hmax]
  · intro reg runs uri hexp hok
    cases hl : latestRun runs with
    | none => simp [resolveLatest, hexp, hl] at hok
    | some r =>
      obtain ⟨hrmem, hrle⟩ := latestRun_spec hl
      simp [resolveLatest, hexp, hl] at hok
      exact ⟨r, hrmem, hok.symm, hrle⟩
  · intro reg h
    simp [resolveLatest, h]
  · intro reg h
    simp [resolveLatest, h, latestRun]
  · intro reg store df e h
    simp [scoreMain, resolveModelUri, h]
  · intro names
    exact ⟨fun h => PipeError.noConfusion h, fun h => PipeError.noConfusion h,
           fun h => PipeError.noConfusion h⟩

/-- C6 witness: two runs with start times 5 < 9 resolve to the later run
from both storage orders. -/
theorem latest_resolution_witness :
    resolveLatest regTwo = .ok ("runs:/" ++ runTwo.runId ++ "/model") ∧
      resolveLatest regTwoRev = .ok ("runs:/" ++ runTwo.runId ++ "/model") :=
  ⟨latest_resolution.1 regTwo [runOne, runTwo] runTwo rfl (by decide) (by decide),
   latest_resolution.1 regTwoRev [runTwo, runOne] runTwo rfl (by decide) (by decide)⟩

/-- C1 (failing evaluation): the replay invariant breaks when date
features are on.  Training on dfDate succeeds and self-checks labels and
scores on the expanded frame, but scoring the very same dataset with the
registered pipeline fails with missing columns year/month/day: the manual
date-expansion step of the training script is not part of the logged
pipeline and is never replayed by the scoring script. -/
theorem replay_breaks_on_date_features :
    (trainMain rawZero true dfDate).preds = .ok [1, 1] ∧
      (trainMain rawZero true dfDate).scores = .ok [1 / 2, 1 / 2] ∧
      scoreMain ⟨[]⟩ (fun _ => some (trainMain rawZero true dfDate).pipeline)
          "runs:/r1/model" dfDate =
        .error (.missingColumns ["year", "month", "day"]) :=
  ⟨by with_unfolding_all rfl, by with_unfolding_all rfl, by with_unfolding_all rfl⟩

/-- C2: scoring a frame that lacks any column of the fit-time schema fails
with the schema error naming exactly the missing columns, before any
output frame is produced; the feature is never silently dropped. -/
theorem missing_column_rejected :
    ∀ (reg : Registry) (store : String → Option FittedPipeline)
      (uri0 uri : String) (pipe : FittedPipeline) (df : DataFrame),
      resolveModelUri reg uri0 = .ok uri →
      store uri = some pipe →
      missingCols pipe.preprocess df ≠ [] →
      scoreMain reg store uri0 df =
        .error (.missingColumns (missingCols pipe.preprocess df)) := by
  intro reg store uri0 uri pipe df hres hstore hmiss
  simp [scoreMain, hres, hstore, pipelinePredict_err hmiss]

/-- C2 witness: scoring a frame without the categorical column "b" of the
fitted schema is rejected. -/
theorem missing_column_rejected_witness :
    scoreMain ⟨[]⟩ storeA "u" dfMissB =
      .error (.missingColumns (missingCols pipeA.preprocess dfMissB)) :=
  missing_column_rejected ⟨[]⟩ storeA "u" "u" pipeA dfMissB rfl rfl (by decide)

/-- C3: a categorical value outside the fit-time vocabulary is encoded as
the all-zero indicator row (handle_unknown="ignore"), and scoring a frame
whose schema columns are all present succeeds, producing the scored
output frame with a label and score for every record. -/
theorem unseen_category_fallback :
    (∀ (st : CatStats) (v : Value) (s : String),
        catVal v = some s → s ∉ st.vocab →
        transformCat st v = st.vocab.map (fun _ => (0 : ℚ))) ∧
    (∀ (reg : Registry) (store : String → Option FittedPipeline)
        (uri0 uri : String) (pipe : FittedPipeline) (df : DataFrame),
        resolveModelUri reg uri0 = .ok uri →
        store uri = some pipe →
        missingCols pipe.preprocess df = [] →
        scoreMain reg store uri0 df =
          .ok (setCol
                (setCol df
                  (predsCol ((transformMat pipe.preprocess df).map (predictOne pipe.model))))
                (scoresCol ((transformMat pipe.preprocess df).map (decisionFunction pipe.model))))) := by
  constructor
  · intro st v s hv hs
    have hsv : (catVal v).getD st.mode = s := by rw [hv]; rfl
    show st.vocab.map (fun c => if c == (catVal v).getD st.mode then (1 : ℚ) else 0) =
      st.vocab.map (fun _ => (0 : ℚ))
    rw [hsv]
    apply List.map_congr_left
    intro c hc
    have hcs : c ≠ s := fun he => hs (he ▸ hc)
    simp [hcs]
  · intro reg store uri0 uri pipe df hres hstore hm
    exact scoreMain_ok_eq hres hstore hm

/-- C3 witness: the unseen category "z" gets the all-zero indicator
against the vocabulary fitted on dfTrainA, and scoring dfScoreA (which
contains "z") succeeds. -/
theorem unseen_category_fallback_witness :
    transformCat ⟨"x", ["x", "y"]⟩ (Value.str "z") =
        (["x", "y"]).map (fun _ => (0 : ℚ)) ∧
      scoreMain ⟨[]⟩ storeA "u" dfScoreA =
        .ok (setCol
              (setCol dfScoreA
                (predsCol ((transformMat pipeA.preprocess dfScoreA).map (predictOne pipeA.model))))
              (scoresCol ((transformMat pipeA.preprocess dfScoreA).map (decisionFunction pipeA.model)))) :=
  ⟨unseen_category_fallback.1 ⟨"x", ["x", "y"]⟩ (Value.str "z") "z" rfl (by decide),
   unseen_category_fallback.2 ⟨[]⟩ storeA "u" "u" pipeA dfScoreA rfl rfl (by decide)⟩

/-- C4 counterexample: a concrete successful scoring run whose output
columns are the originals plus anomaly_pred and anomaly_score — there is
no column named anomaly_label, refuting the claimed output column name. -/
theorem output_columns_named_anomaly_pred :
    scoreMain ⟨[]⟩ storeA "u" dfScoreA = .ok scoredA ∧
      colNames scoredA = ["v", "b", "anomaly_pred", "anomaly_score"] ∧
      "anomaly_label" ∉ colNames scoredA :=
  ⟨by with_unfolding_all rfl, rfl, by decide⟩

/-- C4 amended: every successful scoring run returns the input frame with
its rows, order and original column values unchanged, plus exactly two
appended columns named anomaly_pred and anomaly_score (the code's names
for the label and score columns), each holding one value per input row —
for inputs that do not already use those two column names. -/
theorem scored_output_shape :
    ∀ (reg : Registry) (store : String → Option FittedPipeline)
      (uri0 : String) (df out : DataFrame),
      "anomaly_pred" ∉ colNames df → "anomaly_score" ∉ colNames df →
      scoreMain reg store uri0 df = .ok out →
      ∃ preds scores, out = df ++ [predsCol preds, scoresCol scores] ∧
        preds.length = nrows df ∧ scores.length = nrows df := by
  intro reg store uri0 df out h1 h2 hok
  exact scoreMain_append_shape h1 h2 hok

/-- C4 witness: the shape theorem applied to the concrete run of the
counterexample. -/
theorem scored_output_shape_witness :
    ∃ preds scores, scoredA = dfScoreA ++ [predsCol preds, scoresCol scores] ∧
      preds.length = nrows dfScoreA ∧ scores.length = nrows dfScoreA :=
  scored_output_shape ⟨[]⟩ storeA "u" dfScoreA scoredA (by decide) (by decide)
    (by with_unfolding_all rfl)

/-- C5 counterexample: with contamination="auto" the label is cut at a
fixed offset, not at a per-batch quantile: the same fitted pipeline labels
the single record of one batch anomalous (rate 1) and the single record of
another batch normal (rate 0), so no contamination fraction c satisfies
the claimed "lowest c × N of the batch" characterisation. -/
theorem anomaly_fraction_not_fixed :
    pipelinePredict pipeHead batchLow = .ok [-1] ∧
      pipelinePredict pipeHead batchHigh = .ok [1] ∧
      nrows batchLow = nrows batchHigh ∧
      ¬ ∃ c : ℚ,
          anomalyRateOf (pipelinePredict pipeHead batchLow) = c ∧
          anomalyRateOf (pipelinePredict pipeHead batchHigh) = c := by
  refine ⟨by with_unfolding_all rfl, by with_unfolding_all rfl, rfl, ?_⟩
  rintro ⟨c, h1, h2⟩
  have e1 : anomalyRateOf (pipelinePredict pipeHead batchLow) = 1 := by
    with_unfolding_all rfl
  have e2 : anomalyRateOf (pipelinePredict pipeHead batchHigh) = 0 := by
    with_unfolding_all rfl
  rw [e1] at h1
  rw [e2] at h2
  rw [← h1] at h2
  norm_num at h2

/-- C5 amended: the predicted label is a monotone threshold of the
emitted anomaly score at zero — a record is labelled -1 exactly when its
decision-function score is negative (score_samples below the fixed offset
-1/2 that contamination="auto" sets), so lower scores are more anomalous;
the per-batch lowest-contamination-fraction characterisation is dropped. -/
theorem label_is_threshold_of_score :
    ∀ (pipe : FittedPipeline) (df : DataFrame),
      pipelinePredict pipe df =
        (pipelineScores pipe df).map
          (fun l => l.map (fun s => if s < 0 then (-1 : Int) else 1)) ∧
      (∀ x, predictOne pipe.model x = -1 ↔ decisionFunction pipe.model x < 0) ∧
      (∀ x y, decisionFunction pipe.model x ≤ decisionFunction pipe.model y →
        predictOne pipe.model y = -1 → predictOne pipe.model x = -1) := by
  intro pipe df
  refine ⟨?_, ?_, ?_⟩
  · cases h : transformChecked pipe.preprocess df <;>
      simp [pipelinePredict, pipelineScores, h, Except.map, List.map_map,
        predictOne, Function.comp]
  · intro x
    unfold predictOne
    by_cases h : decisionFunction pipe.model x < 0
    · rw [if_pos h]
      exact iff_of_true rfl h
    · rw [if_neg h]
      exact iff_of_false (by decide) h
  · intro x y hle hy
    have hylt : decisionFunction pipe.model y < 0 := by
      by_contra hno
      unfold predictOne at hy
      rw [if_neg hno] at hy
      exact absurd hy (by decide)
    unfold predictOne
    rw [if_pos (lt_of_le_of_lt hle hylt)]

/-- C5 witness: monotonicity applied at two concrete feature rows of the
concrete fitted model. -/
theorem label_threshold_witness :
    predictOne pipeHead.model [-5] = -1 :=
  (label_is_threshold_of_score pipeHead batchLow).2.2 [-5] [-3]
    (by with_unfolding_all decide) (by with_unfolding_all rfl)

/-- C10: scoring depends only on the fit-time schema columns, selected by
name: two scoring frames with the same row count that agree on the values
of every schema column receive identical predictions and identical scores,
irrespective of column order and of extra columns unknown to the schema;
and the input's columns (extra ones included) are carried unchanged into
the output ahead of the two appended columns. -/
theorem predictions_depend_only_on_schema_columns :
    ∀ (pipe : FittedPipeline) (df1 df2 : DataFrame),
      nrows df1 = nrows df2 →
      (∀ n ∈ schemaCols pipe.preprocess,
          (getCol df1 n).map Col.vals = (getCol df2 n).map Col.vals) →
      pipelinePredict pipe df1 = pipelinePredict pipe df2 ∧
        pipelineScores pipe df1 = pipelineScores pipe df2 ∧
        (∀ (reg : Registry) (store : String → Option FittedPipeline)
            (uri0 : String) (out : DataFrame),
            "anomaly_pred" ∉ colNames df1 → "anomaly_score" ∉ colNames df1 →
            scoreMain reg store uri0 df1 = .ok out →
            ∃ preds scores, out = df1 ++ [predsCol preds, scoresCol scores]) := by
  intro pipe df1 df2 hn hag
  have hmc := missingCols_congr (p := pipe.preprocess) hag
  have hmat := transformMat_congr hn hag
  refine ⟨?_, ?_, ?_⟩
  · simp [pipelinePredict, transformChecked, hmc, hmat]
  · simp [pipelineScores, transformChecked, hmc, hmat]
  · intro reg store uri0 out h1 h2 hok
    obtain ⟨p, s, h3, -, -⟩ := scoreMain_append_shape h1 h2 hok
    exact ⟨p, s, h3⟩

/-- C10 witness: the concrete frame dfShuffledA permutes dfScoreA's
columns and adds an extra column; the fitted pipeline's predictions and
scores are unchanged. -/
theorem schema_columns_witness :
    pipelinePredict pipeA dfScoreA = pipelinePredict pipeA dfShuffledA ∧
      pipelineScores pipeA dfScoreA = pipelineScores pipeA dfShuffledA :=
  ⟨(predictions_depend_only_on_schema_columns pipeA dfScoreA dfShuffledA rfl
      (by decide)).1,
   (predictions_depend_only_on_schema_columns pipeA dfScoreA dfShuffledA rfl
      (by decide)).2.1⟩

end AnomalyPipeline
